import Mathlib

/-!
Verification development for the beattogrid web client (src/web/app.js).

The client is a browser front-end for a job-driven audio time-warp API.
We shallowly embed its pure logic in Lean: JS numbers are modelled as
rationals, DOM input values as their already-parsed numeric values, and
the event handlers as pure functions from a client state plus an
environment response to a new client state and the list of HTTP requests
they issue.  The Warp Planner (server side) is not present in the
repository, so it is modelled from the specification where a claim needs
it.
-/

namespace BeatToGrid

/-! ### JavaScript numeric and string primitives -/

/-- JS Math.round: rounds half toward positive infinity. -/
def jsRound (q : ℚ) : ℤ := ⌊q + 1 / 2⌋

/-- JS truncation toward zero, as used by the JS % operator. -/
def jsTrunc (q : ℚ) : ℤ := if 0 ≤ q then ⌊q⌋ else -⌊-q⌋

/-- JS remainder a % b: the remainder carries the sign of the dividend
(computed with truncating division). -/
def jsMod (a b : ℚ) : ℚ := a - b * (jsTrunc (a / b) : ℚ)

/-- JS String.prototype.padStart with a single pad character. -/
def padStart (s : String) (len : ℕ) (c : Char) : String :=
  if s.length < len then String.mk (List.replicate (len - s.length) c) ++ s else s

/-- JS Number.prototype.toFixed(3) for a non-negative value in the safe
range: round to the nearest thousandth (ties away from zero, which for
non-negative values is toward positive infinity) and print with exactly
three digits after the decimal point. -/
def jsToFixed3 (q : ℚ) : String :=
  let n : ℕ := (jsRound (q * 1000)).toNat
  toString (n / 1000) ++ "." ++ padStart (toString (n % 1000)) 3 '0'

/-- JS toFixed(2), same conventions as jsToFixed3. -/
def jsToFixed2 (q : ℚ) : String :=
  let n : ℕ := (jsRound (q * 100)).toNat
  toString (n / 100) ++ "." ++ padStart (toString (n % 100)) 2 '0'

/-- JS `detail || fallback` on an optional string field: undefined, null
and the empty string are falsy. -/
def jsOrStr : Option String → String → String
  | some d, dflt => if d = "" then dflt else d
  | none, dflt => dflt

/-! ### formatTime (app.js lines 57-61)

The source computes mins as Math.floor(seconds / 60), secs as
(seconds % 60).toFixed(3), and returns the minutes rendered and
zero-padded to width 2, a colon, and secs zero-padded to width 6. -/

/-- Embedding of formatTime from app.js lines 57-61. -/
def formatTime (seconds : ℚ) : String :=
  let mins : ℤ := ⌊seconds / 60⌋
  let secs : String := jsToFixed3 (jsMod seconds 60)
  padStart (toString mins) 2 '0' ++ ":" ++ padStart secs 6 '0'

/-- The output shape described by claim C10: floor(s/60) zero-padded to
at least two digits, a colon, and s mod 60 (the mathematical, floor-based
modulus) rendered with exactly three decimal places and zero-padded to at
least six characters. -/
def formatTimeClaim (s : ℚ) : String :=
  padStart (toString ⌊s / 60⌋) 2 '0' ++ ":"
    ++ padStart (jsToFixed3 (s - 60 * (⌊s / 60⌋ : ℚ))) 6 '0'

/-! ### Zoom (app.js lines 52-107) -/

/-- Initial and minimum zoom level (app.js lines 52-53). -/
def minZoom : ℚ := 1

/-- Maximum zoom level (app.js line 54). -/
def maxZoom : ℚ := 100

/-- The pixels-per-second value handed to ws.zoom (app.js lines 84, 96). -/
def pixelsPerSecond (z : ℚ) : ℚ := max (50 * z) 50

/-- zoomIn (app.js lines 77-87); wsLoaded models the truthiness of ws. -/
def zoomIn (wsLoaded : Bool) (z : ℚ) : ℚ :=
  if !wsLoaded ∨ maxZoom ≤ z then z
  else
    let zoomFactor : ℚ := if z < 10 then 3 / 2 else 2
    min (z * zoomFactor) maxZoom

/-- zoomOut (app.js lines 89-99). -/
def zoomOut (wsLoaded : Bool) (z : ℚ) : ℚ :=
  if !wsLoaded ∨ z ≤ minZoom then z
  else
    let zoomFactor : ℚ := if z ≤ 10 then 3 / 2 else 2
    max (z / zoomFactor) minZoom

/-- zoomToFit (app.js lines 101-107): resets to the minimum zoom and
passes the literal 50 pixels per second to ws.zoom. -/
def zoomToFit (wsLoaded : Bool) (z : ℚ) : ℚ :=
  if !wsLoaded then z else minZoom

/-- One zoom user action, tagged with whether a waveform is loaded. -/
inductive ZoomOp where
  | zin (wsLoaded : Bool)
  | zout (wsLoaded : Bool)
  | zfit (wsLoaded : Bool)
deriving DecidableEq, Repr

/-- Apply one zoom action to the current zoom level. -/
def applyZoomOp (z : ℚ) : ZoomOp → ℚ
  | .zin w => zoomIn w z
  | .zout w => zoomOut w z
  | .zfit w => zoomToFit w z

/-- Apply a sequence of zoom actions starting from zoom level z. -/
def applyZoomOps (z : ℚ) : List ZoomOp → ℚ
  | [] => z
  | op :: rest => applyZoomOps (applyZoomOp z op) rest

/-! ### Files, requests, and responses -/

/-- The fields of a browser File object the client inspects. -/
structure JsFile where
  name : String
  type : String
  size : ℕ
deriving DecidableEq, Repr

/-- MIME types accepted by the change handler (app.js line 467). -/
def validTypes : List String := ["audio/mpeg", "audio/wav", "audio/mp4", "audio/m4a"]

/-- Lowercase a string character by character, as JS toLowerCase does on
ASCII names. -/
def strLower (s : String) : String := String.mk (s.data.map Char.toLower)

/-- Suffix test on the underlying character lists. -/
def strEndsWith (s suffix : String) : Bool := List.isSuffixOf suffix.data s.data

/-- The filename test of app.js line 468: a case-insensitive match of the
regular expression backslash-dot (mp3|wav|m4a) dollar, i.e. the lowered
name ends in .mp3, .wav or .m4a. -/
def hasAudioExtension (name : String) : Bool :=
  let l := strLower name
  strEndsWith l ".mp3" || strEndsWith l ".wav" || strEndsWith l ".m4a"

/-- Upload size limit in bytes (app.js line 474). -/
def maxUploadSize : ℕ := 100 * 1024 * 1024

/-- JSON body of a process request (app.js lines 506-513). The structure
has exactly the six fields the handler serializes. -/
structure ProcessPayload where
  job_id : String
  target_bpm : ℚ
  strength : ℚ
  anchor_time : ℚ
  crossfade_ms : ℤ
  engine : String
deriving DecidableEq, Repr

/-- Body of an outgoing HTTP request issued by the client. -/
inductive RequestBody where
  | json (payload : ProcessPayload)
  | formData (file : JsFile)
deriving DecidableEq, Repr

/-- An outgoing HTTP request issued by the client. -/
structure HttpRequest where
  method : String
  url : String
  body : RequestBody
deriving DecidableEq, Repr

/-- Content of the processStatus element, abstracted to its message. -/
inductive ProcessStatusMsg where
  | empty
  | processing
  | complete
  | failed (msg : String)
deriving DecidableEq, Repr

/-- Content of the uploadProgress element, abstracted to its message. -/
inductive UploadProgressMsg where
  | empty
  | invalidFileType
  | fileTooLarge
  | uploadSuccess (job : Option String)
  | uploadFailed (msg : String)
deriving DecidableEq, Repr

/-! ### Client state

One record per mutable piece of the client the claims mention: the
module-level variables of app.js (jobId, anchorTime, beats, currentZoom,
the ws handle abstracted to its truthiness, processedAudioUrl) and the
DOM state the handlers read or write (the three parameter inputs, modelled
by their parsed numeric values, the process button disabled flag, the
download anchors, and the status areas). -/

structure ClientState where
  jobId : Option String
  anchorTime : Option ℚ
  beats : List ℚ
  wsLoaded : Bool
  currentZoom : ℚ
  bpmValue : ℚ
  strengthValue : ℚ
  cfValue : ℤ
  processBtnDisabled : Bool
  exportVisible : Bool
  downloadWavHref : String
  downloadMp3Href : String
  processedAudioUrl : Option String
  processStatus : ProcessStatusMsg
  uploadMsg : UploadProgressMsg
  analysisBpmShown : Option String
  analysisBeatCountShown : Option ℕ
  comparisonVisible : Bool
deriving DecidableEq, Repr

/-! ### uploadFileWithProgress (app.js lines 319-399) -/

/-- A parsed JSON response body; each contract field may be absent. -/
structure JsonBody where
  job_id : Option String
  bpm_estimate : Option ℚ
  beats : Option (List ℚ)
  detail : Option String
deriving DecidableEq, Repr

/-- Terminal outcome of the upload XMLHttpRequest. With a finite timeout
set the request always ends in one of these events (the client never
calls abort). A load event carries the HTTP status and the result of
JSON.parse on the response text (none when the text is not JSON). -/
inductive XhrOutcome where
  | load (status : ℕ) (body : Option JsonBody)
  | netError
  | timedOut
deriving DecidableEq, Repr

/-- Settlement of the promise returned by uploadFileWithProgress. -/
inductive UploadResult where
  | resolved (data : JsonBody)
  | rejected (msg : String)
deriving DecidableEq, Repr

/-- xhr.timeout (app.js line 396). -/
def uploadTimeoutMs : ℕ := 120000

/-- How uploadFileWithProgress settles its promise for each terminal XHR
outcome (app.js lines 357-393). -/
def uploadSettle : XhrOutcome → UploadResult
  | .load status body =>
    if 200 ≤ status ∧ status < 300 then
      match body with
      | some data => .resolved data
      | none => .rejected "Failed to parse server response"
    else
      match body with
      | some errorData => .rejected (jsOrStr errorData.detail "Upload failed")
      | none => .rejected ("Upload failed with status " ++ toString status)
  | .netError => .rejected "Network error during upload"
  | .timedOut => .rejected "Upload timeout"

/-! ### handleFileUpload (app.js lines 402-446) -/

/-- A response body that has the full upload contract shape
(job_id, bpm_estimate, beats). -/
structure UploadResponseData where
  job_id : String
  bpm_estimate : ℚ
  beats : List ℚ
deriving DecidableEq, Repr

/-- Check a parsed body against the upload contract shape. -/
def contractShape (b : JsonBody) : Option UploadResponseData :=
  match b.job_id, b.bpm_estimate, b.beats with
  | some j, some bpm, some bs => some ⟨j, bpm, bs⟩
  | _, _, _ => none

/-- Success branch of handleFileUpload (app.js lines 406-439) for a
contract-shaped response: store job_id and beats, show the success
message, display the BPM estimate to two decimals and the beat count,
load the waveform, and pre-fill the BPM input with
(Math.round(bpm_estimate * 100) / 100).toFixed(2), whose parsed numeric
value is jsRound(bpm_estimate * 100) / 100. -/
def handleUploadSuccess (s : ClientState) (d : UploadResponseData) : ClientState :=
  { s with
    jobId := some d.job_id
    beats := d.beats
    uploadMsg := .uploadSuccess (some d.job_id)
    analysisBpmShown := some (jsToFixed2 d.bpm_estimate)
    analysisBeatCountShown := some d.beats.length
    wsLoaded := true
    currentZoom := minZoom
    bpmValue := (jsRound (d.bpm_estimate * 100) : ℚ) / 100
    comparisonVisible := false
    exportVisible := false }

/-- Catch branch of handleFileUpload (app.js lines 441-445). -/
def handleUploadFailed (s : ClientState) (msg : String) : ClientState :=
  { s with uploadMsg := .uploadFailed msg }

/-- Full continuation of handleFileUpload on a settled upload promise.
When the promise resolves with a body missing a contract field, the JS
success branch throws midway (reading toFixed or length of undefined)
after having already assigned jobId and beats; the catch branch then
shows the failure message. We model that path coarsely (no claim depends
on it) but keep the partial jobId/beats assignment. -/
def handleUploadSettled (s : ClientState) (r : UploadResult) : ClientState :=
  match r with
  | .resolved data =>
    match contractShape data with
    | some d => handleUploadSuccess s d
    | none =>
      { handleUploadFailed s "TypeError" with
          jobId := data.job_id
          beats := (data.beats).getD s.beats }
  | .rejected m => handleUploadFailed s m

/-! ### File input change handler (app.js lines 449-481) -/

/-- The change handler: nothing happens without a file; otherwise the UI
and the anchor are reset (lines 453-464) before validation; an invalid
type/extension or an oversized file shows an error and returns without
any request; otherwise the upload prologue runs (progress UI reset,
process button disabled, app.js lines 325-336) and the file is sent to
/api/upload. -/
def onFileSelected (s : ClientState) (file : Option JsFile) : ClientState × List HttpRequest :=
  match file with
  | none => (s, [])
  | some f =>
    let s1 := { s with anchorTime := none, currentZoom := minZoom }
    if !(validTypes.contains f.type) && !(hasAudioExtension f.name) then
      ({ s1 with uploadMsg := .invalidFileType }, [])
    else if f.size > maxUploadSize then
      ({ s1 with uploadMsg := .fileTooLarge }, [])
    else
      ({ s1 with uploadMsg := .empty, processStatus := .empty,
                 exportVisible := false, processBtnDisabled := true },
       [{ method := "POST", url := "/api/upload", body := .formData f }])

/-! ### Waveform seek handler (app.js lines 281-295) -/

/-- A seek on the loaded waveform sets the anchor to the current time and
enables the process button. -/
def onSeek (s : ClientState) (t : ℚ) : ClientState :=
  { s with anchorTime := some t, processBtnDisabled := false }

/-! ### Process button handler (app.js lines 495-555) -/

/-- Result of JSON-parsing the process response body, carrying either the
optional detail field or the message of the parse error res.json threw. -/
inductive ProcessBodyParse where
  | json (detail : Option String)
  | malformed (errMsg : String)
deriving DecidableEq, Repr

/-- Terminal outcome of the fetch to /api/process: either a response with
a status and a body, or a rejection of the fetch itself. -/
inductive FetchOutcome where
  | response (status : ℕ) (body : ProcessBodyParse)
  | netFailure (msg : String)
deriving DecidableEq, Repr

/-- Base of the download URLs built on success (app.js line 535). -/
def processDownloadBase (j : String) : String := "/api/download/" ++ j

/-- The process click handler. The guard of line 496 returns when jobId
is falsy (null or the empty string) or anchorTime is null. Otherwise the
six-field payload is built and one POST to /api/process is sent; a 2xx
response (res.ok) shows completion and sets the three download URLs; any
other outcome shows the error message and re-enables the button. -/
def onProcessClick (s : ClientState) (r : FetchOutcome) : ClientState × List HttpRequest :=
  match s.jobId, s.anchorTime with
  | some j, some a =>
    if j = "" then (s, [])
    else
      let payload : ProcessPayload :=
        { job_id := j, target_bpm := s.bpmValue, strength := s.strengthValue,
          anchor_time := a, crossfade_ms := s.cfValue, engine := "auto" }
      let req : HttpRequest := { method := "POST", url := "/api/process", body := .json payload }
      let s1 := { s with processBtnDisabled := true, processStatus := .processing }
      match r with
      | .response status bodyParse =>
        if 200 ≤ status ∧ status < 300 then
          ({ s1 with
              processStatus := .complete,
              downloadWavHref := processDownloadBase j ++ "?format=wav",
              downloadMp3Href := processDownloadBase j ++ "?format=mp3&bitrate=320",
              processedAudioUrl := some (processDownloadBase j ++ "?format=wav&preview=true"),
              exportVisible := true,
              comparisonVisible := true }, [req])
        else
          let msg := match bodyParse with
            | .json detail => jsOrStr detail "Process failed"
            | .malformed e => e
          ({ s1 with processStatus := .failed msg, processBtnDisabled := false }, [req])
      | .netFailure m =>
        ({ s1 with processStatus := .failed m, processBtnDisabled := false }, [req])
  | _, _ => (s, [])

/-! ### The client as an event system -/

/-- The user/network events the embedded handlers react to. -/
inductive Event where
  | seek (t : ℚ)
  | fileSelected (file : Option JsFile)
  | uploadSettled (r : UploadResult)
  | processClick (r : FetchOutcome)
  | zoomInClick
  | zoomOutClick
  | zoomFitClick
  | playClick
deriving DecidableEq, Repr

/-- One step of the client: the new state plus the requests issued. -/
def step (s : ClientState) : Event → ClientState × List HttpRequest
  | .seek t => (onSeek s t, [])
  | .fileSelected f => onFileSelected s f
  | .uploadSettled r => (handleUploadSettled s r, [])
  | .processClick r => onProcessClick s r
  | .zoomInClick => ({ s with currentZoom := zoomIn s.wsLoaded s.currentZoom }, [])
  | .zoomOutClick => ({ s with currentZoom := zoomOut s.wsLoaded s.currentZoom }, [])
  | .zoomFitClick => ({ s with currentZoom := zoomToFit s.wsLoaded s.currentZoom }, [])
  | .playClick => (s, [])

/-! ### Warp Planner (spec section 4.2)

The Warp Planner runs on the server; its source is not under src/ (the
repository holds only the web client and the container manifest), so the
definitions below are modelled from the specification. -/

/-- Modelled from the spec: the Warp Planner is missing from src/. The
blended duration of one beat interval,
reference_duration * (1 - strength) + target_duration * strength. -/
def blendedDuration (strength target_duration reference_duration : ℚ) : ℚ :=
  reference_duration * (1 - strength) + target_duration * strength

/-- Consecutive pairs of a beat list: the beat intervals. -/
def intervalsOf : List ℚ → List (ℚ × ℚ)
  | a :: b :: rest => (a, b) :: intervalsOf (b :: rest)
  | _ => []

/-- Local stretch ratio of one interval: blended over reference duration. -/
def segRatio (strength target_duration : ℚ) (seg : ℚ × ℚ) : ℚ :=
  blendedDuration strength target_duration (seg.2 - seg.1) / (seg.2 - seg.1)

/-- Length of the part of the interval from lo to hi lying below t
(meaningful for lo ≤ hi). -/
def clampLen (lo hi t : ℚ) : ℚ := max 0 (min t hi - lo)

/-- Modelled from the spec: the Warp Planner is missing from src/. The
cumulative output duration accumulated from source time 0 to source time
t: each beat interval contributes its local ratio times the part of the
interval below t, and the regions before the first and after the last
detected beat reuse the nearest interval ratio (edge extension). -/
def warpCumulative (beats : List ℚ) (strength target_duration t : ℚ) : ℚ :=
  match intervalsOf beats with
  | [] => t
  | first :: rest =>
    let segs := first :: rest
    let last := segs.getLastD first
    segRatio strength target_duration first * min t first.1
      + (segs.map (fun seg => segRatio strength target_duration seg * clampLen seg.1 seg.2 t)).sum
      + segRatio strength target_duration last * max 0 (t - last.2)

/-- Modelled from the spec: the Warp Planner is missing from src/. The
warp curve: output time of source time t, anchored so that the
accumulated blend walks outward from anchor_time, making anchor_time a
fixed point. With fewer than two beats the planner falls back to a single
uniform segment using target_bpm directly against bpm_estimate, anchored
the same way. -/
def warp (beats : List ℚ) (bpm_estimate target_bpm strength anchor_time t : ℚ) : ℚ :=
  if beats.length < 2 then
    let r := (1 - strength) + strength * (bpm_estimate / target_bpm)
    anchor_time + r * (t - anchor_time)
  else
    let T := 60 / target_bpm
    anchor_time
      + (warpCumulative beats strength T t - warpCumulative beats strength T anchor_time)

/-! ### Sample inputs used by witnesses -/

/-- A concrete client state with a job and an anchor set. -/
def sampleState : ClientState :=
  { jobId := some "job-1", anchorTime := some 10, beats := [0, 1/2, 1],
    wsLoaded := true, currentZoom := 1, bpmValue := 130, strengthValue := 1,
    cfValue := 20, processBtnDisabled := false, exportVisible := false,
    downloadWavHref := "", downloadMp3Href := "", processedAudioUrl := none,
    processStatus := .empty, uploadMsg := .empty, analysisBpmShown := none,
    analysisBeatCountShown := none, comparisonVisible := false }

/-- A concrete client state whose anchor has not been set. -/
def sampleNoAnchorState : ClientState :=
  { sampleState with anchorTime := none }

/-- A concrete contract-shaped upload response body. -/
def sampleBody : JsonBody :=
  { job_id := some "job-1", bpm_estimate := some 128, beats := some [0, 1/2, 1],
    detail := none }

/-! ## Theorems -/

/-- C2: for every anchor_time within the source range and every strength
in the unit interval, the warp curve built by the Warp Planner maps
anchor_time to itself, on both the beat-grid path and the uniform
fallback path. (Warp Planner modelled from the spec; its source is not
under src/.) -/
theorem C2_warp_anchor_fixed_point (beats : List ℚ)
    (bpm_estimate target_bpm strength source_duration anchor_time : ℚ)
    (_h0 : 0 ≤ anchor_time) (_h1 : anchor_time ≤ source_duration)
    (_hs0 : 0 ≤ strength) (_hs1 : strength ≤ 1) :
    warp beats bpm_estimate target_bpm strength anchor_time anchor_time
      = anchor_time := by
  unfold warp
  split
  · ring
  · ring

/-- Witness for C2 at a concrete beat grid, strength 1 and anchor 1/4. -/
theorem C2_warp_anchor_fixed_point_witness :
    0 ≤ (1/4 : ℚ) ∧ (1/4 : ℚ) ≤ 1 ∧ 0 ≤ (1 : ℚ) ∧ (1 : ℚ) ≤ 1 ∧
    warp [0, 1/2, 1] 120 130 1 (1/4) (1/4) = 1/4 :=
  ⟨by norm_num, by norm_num, by norm_num, by norm_num,
   C2_warp_anchor_fixed_point [0, 1/2, 1] 120 130 1 1 (1/4)
     (by norm_num) (by norm_num) (by norm_num) (by norm_num)⟩

/-- C6: the success continuation of an upload stores job_id as the
current job, stores beats and displays their count, and pre-fills the
BPM input with bpm_estimate rounded to two decimal places: the resulting
value is an integer number of hundredths within 1/200 of the estimate. -/
theorem C6_upload_response_consumption (s : ClientState) (d : UploadResponseData) :
    (handleUploadSuccess s d).jobId = some d.job_id ∧
    (handleUploadSuccess s d).beats = d.beats ∧
    (handleUploadSuccess s d).analysisBeatCountShown = some d.beats.length ∧
    (handleUploadSuccess s d).bpmValue = (jsRound (d.bpm_estimate * 100) : ℚ) / 100 ∧
    (∃ n : ℤ, (handleUploadSuccess s d).bpmValue = (n : ℚ) / 100) ∧
    |(handleUploadSuccess s d).bpmValue - d.bpm_estimate| ≤ 1 / 200 := by
  refine ⟨rfl, rfl, rfl, rfl, ⟨jsRound (d.bpm_estimate * 100), rfl⟩, ?_⟩
  have hval : (handleUploadSuccess s d).bpmValue
      = (jsRound (d.bpm_estimate * 100) : ℚ) / 100 := rfl
  rw [hval, abs_le]
  unfold jsRound
  have hle : ((⌊d.bpm_estimate * 100 + 1/2⌋ : ℤ) : ℚ) ≤ d.bpm_estimate * 100 + 1/2 :=
    Int.floor_le _
  have hgt : d.bpm_estimate * 100 + 1/2 < ((⌊d.bpm_estimate * 100 + 1/2⌋ : ℤ) : ℚ) + 1 :=
    Int.lt_floor_add_one _
  constructor <;> linarith

/-- C7: the upload promise always reaches a terminal outcome: it
resolves with the parsed body on a 2xx status, rejects with a specific
error on a parse failure, on a non-2xx status, on a network error and on
timeout, and the XHR timeout is set to 120000 milliseconds. -/
theorem C7_upload_promise_settles :
    uploadTimeoutMs = 120000 ∧
    (∀ (status : ℕ) (data : JsonBody), 200 ≤ status → status < 300 →
       uploadSettle (.load status (some data)) = .resolved data) ∧
    (∀ status : ℕ, 200 ≤ status → status < 300 →
       uploadSettle (.load status none) = .rejected "Failed to parse server response") ∧
    (∀ (status : ℕ) (body : Option JsonBody), ¬(200 ≤ status ∧ status < 300) →
       ∃ m, uploadSettle (.load status body) = .rejected m) ∧
    uploadSettle .netError = .rejected "Network error during upload" ∧
    uploadSettle .timedOut = .rejected "Upload timeout" ∧
    (∀ o : XhrOutcome, (∃ d, uploadSettle o = .resolved d) ∨
       (∃ m, uploadSettle o = .rejected m)) := by
  refine ⟨rfl, ?_, ?_, ?_, rfl, rfl, ?_⟩
  · intro st data h1 h2
    simp [uploadSettle, h1, h2]
  · intro st h1 h2
    simp [uploadSettle, h1, h2]
  · intro st body h
    cases body with
    | none =>
      exact ⟨"Upload failed with status " ++ toString st, by simp [uploadSettle, h]⟩
    | some e =>
      exact ⟨jsOrStr e.detail "Upload failed", by simp [uploadSettle, h]⟩
  · intro o
    cases o with
    | load st body =>
      by_cases h : 200 ≤ st ∧ st < 300
      · cases body with
        | some d => exact Or.inl ⟨d, by simp [uploadSettle, h]⟩
        | none =>
          exact Or.inr ⟨"Failed to parse server response", by simp [uploadSettle, h]⟩
      · cases body with
        | some d => exact Or.inr ⟨jsOrStr d.detail "Upload failed", by simp [uploadSettle, h]⟩
        | none =>
          exact Or.inr ⟨"Upload failed with status " ++ toString st, by simp [uploadSettle, h]⟩
    | netError => exact Or.inr ⟨_, rfl⟩
    | timedOut => exact Or.inr ⟨_, rfl⟩

/-- Witness for C7: a 200 response with a parsed body resolves with it. -/
theorem C7_upload_promise_settles_witness :
    uploadSettle (.load 200 (some sampleBody)) = .resolved sampleBody :=
  C7_upload_promise_settles.2.1 200 sampleBody (by decide) (by decide)

/-- Step preservation for the zoom bounds. -/
theorem zoomOp_bounds (z : ℚ) (op : ZoomOp) (h1 : 1 ≤ z) (h2 : z ≤ 100) :
    1 ≤ applyZoomOp z op ∧ applyZoomOp z op ≤ 100 := by
  have h0 : (0:ℚ) ≤ z := le_trans (by norm_num) h1
  cases op with
  | zin w =>
    simp only [applyZoomOp, zoomIn, minZoom, maxZoom]
    split_ifs with hret hf
    · exact ⟨h1, h2⟩
    · exact ⟨le_min (by nlinarith) (by norm_num), min_le_right _ _⟩
    · exact ⟨le_min (by nlinarith) (by norm_num), min_le_right _ _⟩
  | zout w =>
    simp only [applyZoomOp, zoomOut, minZoom, maxZoom]
    split_ifs with hret hf
    · exact ⟨h1, h2⟩
    · refine ⟨le_max_right _ _, max_le ?_ (by norm_num)⟩
      calc z / (3/2) ≤ z := div_le_self h0 (by norm_num)
        _ ≤ 100 := h2
    · refine ⟨le_max_right _ _, max_le ?_ (by norm_num)⟩
      calc z / 2 ≤ z := div_le_self h0 (by norm_num)
        _ ≤ 100 := h2
  | zfit w =>
    simp only [applyZoomOp, zoomToFit, minZoom]
    split_ifs with hret
    · exact ⟨h1, h2⟩
    · exact ⟨le_refl 1, by norm_num⟩

/-- The zoom bounds are preserved along any action sequence. -/
theorem applyZoomOps_bounds (ops : List ZoomOp) :
    ∀ z : ℚ, 1 ≤ z → z ≤ 100 → 1 ≤ applyZoomOps z ops ∧ applyZoomOps z ops ≤ 100 := by
  induction ops with
  | nil =>
    intro z h1 h2
    exact ⟨h1, h2⟩
  | cons op rest ih =>
    intro z h1 h2
    have h := zoomOp_bounds z op h1 h2
    simpa only [applyZoomOps] using ih _ h.1 h.2

/-- C8: starting at the minimum zoom, any sequence of zoomIn, zoomOut and
zoomToFit actions keeps currentZoom within the interval from 1 to 100,
and the pixels-per-second value passed to the waveform zoom is always at
least 50. -/
theorem C8_zoom_level_invariant :
    (∀ ops : List ZoomOp,
       1 ≤ applyZoomOps minZoom ops ∧ applyZoomOps minZoom ops ≤ 100) ∧
    (∀ z : ℚ, 50 ≤ pixelsPerSecond z) := by
  constructor
  · intro ops
    have h := applyZoomOps_bounds ops 1 le_rfl (by norm_num)
    simpa only [minZoom] using h
  · intro z
    exact le_max_right _ _

/-- C10: for every non-negative number of seconds, formatTime produces
the minutes floor(s/60) zero-padded to at least two digits, a colon, and
s mod 60 rendered with exactly three decimal places zero-padded to at
least six characters; at 65.5 seconds the output is 01:05.500. -/
theorem C10_formatTime_shape :
    (∀ s : ℚ, 0 ≤ s → formatTime s = formatTimeClaim s) ∧
    formatTime (131/2) = "01:05.500" := by
  constructor
  · intro s hs
    have ht : jsTrunc (s / 60) = ⌊s / 60⌋ := by
      unfold jsTrunc
      rw [if_pos (div_nonneg hs (by norm_num))]
    unfold formatTime formatTimeClaim jsMod
    rw [ht]
  · norm_num [formatTime, jsToFixed3, jsMod, jsTrunc, jsRound, padStart]
    decide

/-- Witness for C10 at 65.5 seconds. -/
theorem C10_formatTime_shape_witness :
    0 ≤ (131/2 : ℚ) ∧ formatTime (131/2) = formatTimeClaim (131/2) :=
  ⟨by norm_num, C10_formatTime_shape.1 (131/2) (by norm_num)⟩

/-- C1: with a job id and an anchor set, a click on the process button
sends exactly one POST request to /api/process whose JSON body has
exactly the six fields job_id, target_bpm, strength, anchor_time,
crossfade_ms and engine, with the parsed BPM and strength input values,
the parsed integer crossfade value, and the literal engine auto. -/
theorem C1_single_process_request (s : ClientState) (j : String) (a : ℚ)
    (r : FetchOutcome) (hj : s.jobId = some j) (hne : j ≠ "")
    (ha : s.anchorTime = some a) :
    (onProcessClick s r).2 =
      [{ method := "POST", url := "/api/process",
         body := .json { job_id := j, target_bpm := s.bpmValue,
                         strength := s.strengthValue, anchor_time := a,
                         crossfade_ms := s.cfValue, engine := "auto" } }] := by
  unfold onProcessClick
  rw [hj, ha]
  simp only []
  rw [if_neg hne]
  cases r with
  | response st bp =>
    by_cases h : 200 ≤ st ∧ st < 300 <;> simp [h]
  | netFailure m => rfl

/-- Witness for C1 on the sample state and a network failure outcome. -/
theorem C1_single_process_request_witness :
    (onProcessClick sampleState (.netFailure "net")).2 =
      [{ method := "POST", url := "/api/process",
         body := .json { job_id := "job-1", target_bpm := 130, strength := 1,
                         anchor_time := 10, crossfade_ms := 20,
                         engine := "auto" } }] :=
  C1_single_process_request sampleState "job-1" 10 (.netFailure "net")
    rfl (by decide) rfl

/-- C3: the process call is treated as blocking until a terminal outcome:
a 2xx response immediately shows completion and the export links, a
non-2xx response with a JSON body shows the detail string (or the generic
message when detail is absent) and re-enables the process button, and in
every case exactly one request is issued, a POST to /api/process — the
client never polls. -/
theorem C3_process_terminal_outcome (s : ClientState) (j : String) (a : ℚ)
    (hj : s.jobId = some j) (hne : j ≠ "") (ha : s.anchorTime = some a) :
    (∀ (status : ℕ) (body : ProcessBodyParse), 200 ≤ status → status < 300 →
       (onProcessClick s (.response status body)).1.processStatus = .complete ∧
       (onProcessClick s (.response status body)).1.exportVisible = true) ∧
    (∀ (status : ℕ) (d : String), ¬(200 ≤ status ∧ status < 300) → d ≠ "" →
       (onProcessClick s (.response status (.json (some d)))).1.processStatus
           = .failed d ∧
       (onProcessClick s (.response status (.json (some d)))).1.processBtnDisabled
           = false) ∧
    (∀ status : ℕ, ¬(200 ≤ status ∧ status < 300) →
       (onProcessClick s (.response status (.json none))).1.processStatus
           = .failed "Process failed" ∧
       (onProcessClick s (.response status (.json none))).1.processBtnDisabled
           = false) ∧
    (∀ r : FetchOutcome, (onProcessClick s r).2.length = 1 ∧
       ∀ req ∈ (onProcessClick s r).2,
         req.method = "POST" ∧ req.url = "/api/process") := by
  refine ⟨?_, ?_, ?_, ?_⟩
  · intro st body h1 h2
    constructor <;> simp [onProcessClick, hj, ha, hne, h1, h2]
  · intro st d h hd
    constructor <;> simp [onProcessClick, hj, ha, hne, h, jsOrStr, hd]
  · intro st h
    constructor <;> simp [onProcessClick, hj, ha, hne, h, jsOrStr]
  · intro r
    cases r with
    | response st bp =>
      by_cases h : 200 ≤ st ∧ st < 300 <;>
        constructor <;> simp [onProcessClick, hj, ha, hne, h]
    | netFailure m =>
      constructor <;> simp [onProcessClick, hj, ha, hne]

/-- Witness for C3 on the sample state and a 404 response with detail. -/
theorem C3_process_terminal_outcome_witness :
    (onProcessClick sampleState (.response 404 (.json (some "Job not found")))).1.processStatus
        = .failed "Job not found" ∧
    (onProcessClick sampleState (.response 404 (.json (some "Job not found")))).1.processBtnDisabled
        = false :=
  (C3_process_terminal_outcome sampleState "job-1" 10 rfl (by decide) rfl).2.1
    404 "Job not found" (by decide) (by decide)

/-- C4: a selected file is uploaded only when it meets the contract: a
file whose type is not an accepted audio MIME type and whose name lacks
an accepted extension, or whose size exceeds 100 MiB, produces an error
message and no network request. -/
theorem C4_upload_validation (s : ClientState) (f : JsFile)
    (h : (validTypes.contains f.type = false ∧ hasAudioExtension f.name = false)
         ∨ f.size > maxUploadSize) :
    (onFileSelected s (some f)).2 = [] ∧
    ((onFileSelected s (some f)).1.uploadMsg = .invalidFileType ∨
     (onFileSelected s (some f)).1.uploadMsg = .fileTooLarge) := by
  simp only [onFileSelected]
  split_ifs with h1 h2
  · exact ⟨rfl, Or.inl rfl⟩
  · exact ⟨rfl, Or.inr rfl⟩
  · exfalso
    rcases h with ⟨ha, hb⟩ | hs
    · exact h1 (by rw [ha, hb]; rfl)
    · exact h2 hs

/-- Witness for C4 with a plain-text file. -/
theorem C4_upload_validation_witness :
    ((validTypes.contains "text/plain" = false
        ∧ hasAudioExtension "notes.txt" = false)
      ∨ 1234 > maxUploadSize) ∧
    ((onFileSelected sampleState (some ⟨"notes.txt", "text/plain", 1234⟩)).2 = [] ∧
     ((onFileSelected sampleState (some ⟨"notes.txt", "text/plain", 1234⟩)).1.uploadMsg
          = .invalidFileType ∨
      (onFileSelected sampleState (some ⟨"notes.txt", "text/plain", 1234⟩)).1.uploadMsg
          = .fileTooLarge)) :=
  ⟨by decide, C4_upload_validation sampleState ⟨"notes.txt", "text/plain", 1234⟩ (by decide)⟩

/-- C5: after a successful process response for a job, the download URLs
follow the Download contract: the wav link, the mp3 link with its
bitrate, and the preview distinguished solely by the preview flag, and
no further process request is issued. -/
theorem C5_download_urls (s : ClientState) (j : String) (a : ℚ) (status : ℕ)
    (body : ProcessBodyParse) (hj : s.jobId = some j) (hne : j ≠ "")
    (ha : s.anchorTime = some a) (h2 : 200 ≤ status) (h3 : status < 300) :
    (onProcessClick s (.response status body)).1.downloadWavHref
        = "/api/download/" ++ j ++ "?format=wav" ∧
    (onProcessClick s (.response status body)).1.downloadMp3Href
        = "/api/download/" ++ j ++ "?format=mp3&bitrate=320" ∧
    (onProcessClick s (.response status body)).1.processedAudioUrl
        = some ("/api/download/" ++ j ++ "?format=wav&preview=true") ∧
    (onProcessClick s (.response status body)).2.length = 1 := by
  refine ⟨?_, ?_, ?_, ?_⟩ <;>
    simp [onProcessClick, hj, ha, hne, h2, h3, processDownloadBase, String.append_assoc]

/-- Witness for C5 on the sample state and a 200 response. -/
theorem C5_download_urls_witness :
    (onProcessClick sampleState (.response 200 (.json none))).1.downloadWavHref
        = "/api/download/" ++ "job-1" ++ "?format=wav" ∧
    (onProcessClick sampleState (.response 200 (.json none))).1.downloadMp3Href
        = "/api/download/" ++ "job-1" ++ "?format=mp3&bitrate=320" ∧
    (onProcessClick sampleState (.response 200 (.json none))).1.processedAudioUrl
        = some ("/api/download/" ++ "job-1" ++ "?format=wav&preview=true") ∧
    (onProcessClick sampleState (.response 200 (.json none))).2.length = 1 :=
  C5_download_urls sampleState "job-1" 10 200 (.json none)
    rfl (by decide) rfl (by decide) (by decide)

/-- C9: the client never sends a process request without a job and an
anchor: the handler returns with no request and no state change when the
job id or the anchor is missing; the anchor becomes non-null only
through a seek, and selecting a new file resets it to null. -/
theorem C9_process_guard :
    (∀ (s : ClientState) (r : FetchOutcome),
       s.jobId = none ∨ s.anchorTime = none → step s (.processClick r) = (s, [])) ∧
    (∀ (s : ClientState) (t : ℚ), (step s (.seek t)).1.anchorTime = some t) ∧
    (∀ (s : ClientState) (f : JsFile),
       (step s (.fileSelected (some f))).1.anchorTime = none) ∧
    (∀ (s : ClientState) (e : Event), (∀ t, e ≠ .seek t) →
       (step s e).1.anchorTime = s.anchorTime ∨ (step s e).1.anchorTime = none) := by
  refine ⟨?_, ?_, ?_, ?_⟩
  · intro s r h
    rcases h with h | h
    · simp [step, onProcessClick, h]
    · rcases hj : s.jobId with _ | j <;> simp [step, onProcessClick, hj, h]
  · intro s t
    simp [step, onSeek]
  · intro s f
    show (onFileSelected s (some f)).1.anchorTime = none
    simp only [onFileSelected]
    split_ifs <;> rfl
  · intro s e he
    cases e with
    | seek t => exact absurd rfl (he t)
    | fileSelected f =>
      cases f with
      | none => exact Or.inl rfl
      | some g =>
        refine Or.inr ?_
        show (onFileSelected s (some g)).1.anchorTime = none
        simp only [onFileSelected]
        split_ifs <;> rfl
    | uploadSettled r =>
      refine Or.inl ?_
      cases r with
      | resolved data =>
        rcases hcs : contractShape data with _ | d <;>
          simp [step, handleUploadSettled, handleUploadSuccess, handleUploadFailed, hcs]
      | rejected m =>
        simp [step, handleUploadSettled, handleUploadFailed]
    | processClick r =>
      refine Or.inl ?_
      show (onProcessClick s r).1.anchorTime = s.anchorTime
      rcases hj : s.jobId with _ | j
      · simp [onProcessClick, hj]
      · rcases ha : s.anchorTime with _ | a
        · simp [onProcessClick, hj, ha]
        · by_cases hje : j = ""
          · simp [onProcessClick, hj, ha, hje]
          · cases r with
            | response st bp =>
              by_cases h : 200 ≤ st ∧ st < 300 <;>
                simp [onProcessClick, hj, ha, hje, h]
            | netFailure m => simp [onProcessClick, hj, ha, hje]
    | zoomInClick => exact Or.inl rfl
    | zoomOutClick => exact Or.inl rfl
    | zoomFitClick => exact Or.inl rfl
    | playClick => exact Or.inl rfl

/-- Witness for C9: with no anchor set the click is a no-op. -/
theorem C9_process_guard_witness :
    step sampleNoAnchorState (.processClick (.netFailure "net"))
      = (sampleNoAnchorState, []) :=
  C9_process_guard.1 sampleNoAnchorState (.netFailure "net") (Or.inr rfl)

end BeatToGrid
